import Mathlib

/-!
Verification of the GPU-driven sparse-voxel-octree builder of this repository
against its natural-language specification.

The development shallowly embeds the host-side orchestration code of
`src/application/svo-builder/SvoBuilder.cpp` (command-buffer recording,
per-chunk build sequence, chunk-grid loop) together with faithful models of
the pieces of the repository that the orchestrator calls into.  GPU compute
shaders are opaque to the host: the host only ever observes them through two
fenced read-backs (`voxelFragmentCount` and `octreeBufferLength`) and through
the contents of the per-chunk octree staging buffer, so they are modelled as
an oracle supplying exactly those observations.
-/

/-- Unsigned 3-component vector, mirroring `glm::uvec3`. -/
structure UVec3 where
  x : Nat
  y : Nat
  z : Nat
deriving DecidableEq

/-- Chunk grid coordinate, mirroring `ChunkIndex` in `SvoBuilder.hpp`. -/
structure ChunkIndex where
  x : Nat
  y : Nat
  z : Nat
deriving DecidableEq

/-- The compute pipelines created in `SvoBuilder::_createPipelines`. -/
inductive PipelineId
  | chunksBuilder
  | chunkFieldConstruction
  | chunkVoxelCreation
  | chunkModifyArg
  | initNode
  | tagNode
  | allocNode
  | modifyArg
deriving DecidableEq

/-- The two buffers created with `VK_BUFFER_USAGE_INDIRECT_BUFFER_BIT` in
`SvoBuilder::_createBuffers` and passed to `vkCmdDispatchIndirect`. -/
inductive IndirectBufferId
  | indirectAllocNum
  | indirectFragLength
deriving DecidableEq

/-- Access-mask bits used by the barriers of `SvoBuilder.cpp`
(`VK_ACCESS_SHADER_READ_BIT`, `VK_ACCESS_SHADER_WRITE_BIT`,
`VK_ACCESS_INDIRECT_COMMAND_READ_BIT`). -/
structure AccessMask where
  shaderRead : Bool
  shaderWrite : Bool
  indirectCommandRead : Bool
deriving DecidableEq

/-- Pipeline-stage bits used by the barriers of `SvoBuilder.cpp`
(`VK_PIPELINE_STAGE_COMPUTE_SHADER_BIT`, `VK_PIPELINE_STAGE_DRAW_INDIRECT_BIT`). -/
structure StageMask where
  computeShader : Bool
  drawIndirect : Bool
deriving DecidableEq

/-- One recorded command of a command buffer: a direct compute dispatch
(`vkCmdDispatch` with workgroup counts), an indirect compute dispatch
(`vkCmdDispatchIndirect` reading its workgroup counts from an indirect
buffer), or a pipeline memory barrier (`vkCmdPipelineBarrier` with one
`VkMemoryBarrier`). -/
inductive Cmd
  | dispatch (p : PipelineId) (x y z : Nat)
  | dispatchIndirect (p : PipelineId) (buf : IndirectBufferId)
  | pipelineBarrier (srcStage dstStage : StageMask) (srcAccess dstAccess : AccessMask)
deriving DecidableEq

/-- Ceiling division, embedding `std::ceil((float)threadCount / (float)workGroupSize)`
in `ComputePipeline::recordCommand` (exact for the divisor values 1, 8, 64 used here). -/
def ceilDiv (a b : Nat) : Nat := (a + b - 1) / b

/-- Embedding of `ComputePipeline::recordCommand`: a direct dispatch whose
workgroup counts are the thread counts divided (rounding up) by the
pipeline's workgroup size. -/
def recordCommand (p : PipelineId) (wgX wgY wgZ tX tY tZ : Nat) : Cmd :=
  .dispatch p (ceilDiv tX wgX) (ceilDiv tY wgY) (ceilDiv tZ wgZ)

/-- Embedding of `ComputePipeline::recordIndirectCommand`: `vkCmdDispatchIndirect`
on the given indirect buffer. -/
def recordIndirectCommand (p : PipelineId) (buf : IndirectBufferId) : Cmd :=
  .dispatchIndirect p buf

/-- The `shaderAccessBarrier` of `SvoBuilder.cpp`: source access shader-write,
destination access shader-read plus shader-write, compute stage to compute stage. -/
def shaderAccessBarrier : Cmd :=
  .pipelineBarrier
    { computeShader := true, drawIndirect := false }
    { computeShader := true, drawIndirect := false }
    { shaderRead := false, shaderWrite := true, indirectCommandRead := false }
    { shaderRead := true, shaderWrite := true, indirectCommandRead := false }

/-- The `indirectReadBarrier` of `SvoBuilder.cpp`: source access shader-write,
destination access indirect-command-read, compute stage to
draw-indirect plus compute stage. -/
def indirectReadBarrier : Cmd :=
  .pipelineBarrier
    { computeShader := true, drawIndirect := false }
    { computeShader := true, drawIndirect := true }
    { shaderRead := false, shaderWrite := true, indirectCommandRead := false }
    { shaderRead := false, shaderWrite := false, indirectCommandRead := true }

/-- Embedding of `SvoBuilder::_recordFragmentListCreationCommandBuffer`:
field construction over `(chunkVoxelDim+1)³` threads (workgroup 8×8×8), a
shader barrier, voxel creation over `chunkVoxelDim³` threads (workgroup
8×8×8), and a final shader barrier. -/
def recordFragmentListCreationCommandBuffer (chunkVoxelDim : Nat) : List Cmd :=
  [recordCommand .chunkFieldConstruction 8 8 8
     (chunkVoxelDim + 1) (chunkVoxelDim + 1) (chunkVoxelDim + 1),
   shaderAccessBarrier,
   recordCommand .chunkVoxelCreation 8 8 8 chunkVoxelDim chunkVoxelDim chunkVoxelDim,
   shaderAccessBarrier]

/-- Commands recorded for one iteration of the level loop in
`SvoBuilder::_recordOctreeCreationCommandBuffer`: init-node (indirect from the
alloc-num buffer), shader barrier, tag-node (indirect from the frag-length
buffer); and when `level != voxelLevelCount - 1`, additionally a shader
barrier, alloc-node (indirect from the alloc-num buffer), shader barrier,
modify-arg (direct 1×1×1 dispatch), shader barrier and indirect-read barrier. -/
def octreeLevelCmds (voxelLevelCount level : Nat) : List Cmd :=
  [recordIndirectCommand .initNode .indirectAllocNum,
   shaderAccessBarrier,
   recordIndirectCommand .tagNode .indirectFragLength] ++
  (if level ≠ voxelLevelCount - 1 then
    [shaderAccessBarrier,
     recordIndirectCommand .allocNode .indirectAllocNum,
     shaderAccessBarrier,
     recordCommand .modifyArg 1 1 1 1 1 1,
     shaderAccessBarrier,
     indirectReadBarrier]
  else [])

/-- Embedding of `SvoBuilder::_recordOctreeCreationCommandBuffer`: the pre-loop
chunk-modify-arg dispatch with its shader and indirect-read barriers, followed
by the level loop `for (level = 0; level < voxelLevelCount; level++)`. -/
def recordOctreeCreationCommandBuffer (voxelLevelCount : Nat) : List Cmd :=
  [recordCommand .chunkModifyArg 1 1 1 1 1 1,
   shaderAccessBarrier,
   indirectReadBarrier] ++
  (List.range voxelLevelCount).flatMap (octreeLevelCmds voxelLevelCount)

/-- Embedding of the level-count computation in `SvoBuilder::init`:
`_voxelLevelCount = static_cast<uint32_t>(std::log2(_chunkVoxelDim))`, which
for the power-of-two `chunkVoxelDim` required by the data model equals the
exact base-2 logarithm. -/
def voxelLevelCountOf (chunkVoxelDim : Nat) : Nat := Nat.log2 chunkVoxelDim

/-- Recognizer for the init-node indirect dispatch that opens each iteration
of the level loop. -/
def isInitNodeDispatch : Cmd → Bool
  | .dispatchIndirect .initNode _ => true
  | _ => false

/-- Number of level-loop iterations present in a recorded command list,
counted by its init-node dispatches (each iteration records exactly one). -/
def levelLoopIterationCount (cmds : List Cmd) : Nat :=
  cmds.countP isInitNodeDispatch

/-- Recognizer for dispatch commands (direct or indirect), used to extract
the stage order of a recorded command buffer without its barriers. -/
def isDispatchCmd : Cmd → Bool
  | .dispatch _ _ _ _ => true
  | .dispatchIndirect _ _ => true
  | _ => false

/-- The dispatch subsequence of a recorded command list (barriers removed). -/
def dispatchSequence (cmds : List Cmd) : List Cmd :=
  cmds.filter isDispatchCmd

/-- Stage order claimed by the specification for the octree-builder pass,
stated in the spec's own words: pre-loop chunk-modify-arg, then per level
init-node (indirect from the alloc window buffer) and tag-node (indirect from
the fragment-length buffer), and for every non-last level alloc-node
(indirect from the node-count buffer) followed by modify-arg. -/
def specOctreeDispatchOrder (voxelLevelCount : Nat) : List Cmd :=
  .dispatch .chunkModifyArg 1 1 1 ::
  (List.range voxelLevelCount).flatMap (fun level =>
    [.dispatchIndirect .initNode .indirectAllocNum,
     .dispatchIndirect .tagNode .indirectFragLength] ++
    (if level ≠ voxelLevelCount - 1 then
      [.dispatchIndirect .allocNode .indirectAllocNum,
       .dispatch .modifyArg 1 1 1]
    else []))

/-- Recognizer for the dispatches that write an indirect-dispatch argument
buffer: the pre-loop chunk-modify-arg dispatch and the in-loop modify-arg
dispatch. -/
def isArgWriteDispatch : Cmd → Bool
  | .dispatch .chunkModifyArg _ _ _ => true
  | .dispatch .modifyArg _ _ _ => true
  | _ => false

/-- Recognizer for indirect dispatches, the consumers of the indirect-dispatch
argument buffers. -/
def isIndirectDispatch : Cmd → Bool
  | .dispatchIndirect _ _ => true
  | _ => false

/-- Recognizer for a pipeline barrier whose source access is shader-write and
whose destination access includes indirect-command-read. -/
def isWriteToIndirectBarrier : Cmd → Bool
  | .pipelineBarrier _ _ srcAccess dstAccess =>
      srcAccess.shaderWrite && dstAccess.indirectCommandRead
  | _ => false

/-- Scan of a command list checking the write-to-indirect barrier discipline.
The boolean state records whether an indirect-argument write has happened with
no shader-write-to-indirect-command-read barrier after it yet; the scan
returns `none` exactly when some indirect dispatch is recorded while such an
unprotected write is pending, and otherwise returns the final pending flag. -/
def barrierScan : List Cmd → Bool → Option Bool
  | [], pending => some pending
  | c :: rest, pending =>
      if isIndirectDispatch c && pending then none
      else
        barrierScan rest
          (if isArgWriteDispatch c then true
           else if isWriteToIndirectBarrier c then false
           else pending)

/-- One allocation handed out by the chunk memory allocator: a byte range
`[offset, offset + length)` inside the shared octree buffer. -/
structure AllocResult where
  offset : Nat
  length : Nat
deriving DecidableEq

/-- Bookkeeping state of the chunk memory allocator: the up-front capacity,
the bump cursor, and the allocations handed out so far in this session. -/
structure AllocatorState where
  capacity : Nat
  cursor : Nat
  allocationCount : Nat
  allocations : List AllocResult
deriving DecidableEq

/-- Modelled from the spec: the `CustomMemoryAllocator` implementation
(`custom-mem-alloc/CustomMemoryAllocator.hpp`) is declared and called by the
examined sources but its definition is not among them.  Per the spec it is a
monotonic bump allocator over a single capacity reserved up front, with
4-byte (uint32) alignment, that reports exhaustion instead of silently
wrapping.  `allocate sizeInBytes` returns the `{offset, length}` range at the
cursor and advances the cursor by the size rounded up to a multiple of 4;
it fails when the request exceeds the remaining capacity. -/
def CustomMemoryAllocator.allocate (s : AllocatorState) (sizeInBytes : Nat) :
    Option (AllocResult × AllocatorState) :=
  let alignedSize := 4 * ((sizeInBytes + 3) / 4)
  if s.cursor + alignedSize ≤ s.capacity then
    let r : AllocResult := { offset := s.cursor, length := sizeInBytes }
    some (r, { s with
                cursor := s.cursor + alignedSize,
                allocationCount := s.allocationCount + 1,
                allocations := s.allocations ++ [r] })
  else none

/-- A freshly constructed allocator session over `capacity` bytes, as created
in `SvoBuilder::init` with a 2 GiB capacity. -/
def CustomMemoryAllocator.fresh (capacity : Nat) : AllocatorState :=
  { capacity := capacity, cursor := 0, allocationCount := 0, allocations := [] }

/-- One allocator session serving a list of requests in order; a failing
request is fatal for the build, so no request after it is served. -/
def CustomMemoryAllocator.allocateAll (s : AllocatorState) : List Nat → AllocatorState
  | [] => s
  | r :: rs =>
    match CustomMemoryAllocator.allocate s r with
    | none => s
    | some (_, s') => CustomMemoryAllocator.allocateAll s' rs

/-- Contents of `_octreeBuildInfoBuffer`, mirroring `G_OctreeBuildInfo`. -/
structure G_OctreeBuildInfo where
  allocBegin : Nat
  allocNum : Nat
deriving DecidableEq

/-- Contents of an indirect-dispatch argument buffer, mirroring
`G_IndirectDispatchInfo`. -/
structure G_IndirectDispatchInfo where
  dispatchX : Nat
  dispatchY : Nat
  dispatchZ : Nat
deriving DecidableEq

/-- Contents of `_fragmentListInfoBuffer`, mirroring `G_FragmentListInfo`. -/
structure G_FragmentListInfo where
  voxelResolution : Nat
  voxelFragmentCount : Nat
deriving DecidableEq

/-- Contents of `_chunksInfoBuffer`, mirroring `G_ChunksInfo`. -/
structure G_ChunksInfo where
  chunksDim : UVec3
  currentlyWritingChunk : UVec3
deriving DecidableEq

/-- The per-chunk transient buffers reset by
`SvoBuilder::_resetBufferDataForNewChunkGeneration`. -/
structure TransientBuffers where
  counterBuffer : Nat
  octreeBuildInfoBuffer : G_OctreeBuildInfo
  indirectAllocNumBuffer : G_IndirectDispatchInfo
  indirectFragLengthBuffer : G_IndirectDispatchInfo
  fragmentListInfoBuffer : G_FragmentListInfo
  chunksInfoBuffer : G_ChunksInfo
  octreeBufferLengthBuffer : Nat
deriving DecidableEq

/-- Configuration loaded in `SvoBuilder::_loadConfig`: the chunk voxel
resolution and the chunk-grid dimensions. -/
structure SvoConfig where
  chunkVoxelDim : Nat
  chunkDimX : Nat
  chunkDimY : Nat
  chunkDimZ : Nat
deriving DecidableEq

/-- Embedding of `SvoBuilder::getChunksDim`. -/
def SvoConfig.getChunksDim (cfg : SvoConfig) : UVec3 :=
  { x := cfg.chunkDimX, y := cfg.chunkDimY, z := cfg.chunkDimZ }

/-- The level count derived in `SvoBuilder::init` from the configured
chunk voxel resolution. -/
def SvoConfig.voxelLevelCount (cfg : SvoConfig) : Nat :=
  voxelLevelCountOf cfg.chunkVoxelDim

/-- Total number of chunk coordinates in the grid. -/
def SvoConfig.chunkCount (cfg : SvoConfig) : Nat :=
  cfg.chunkDimX * cfg.chunkDimY * cfg.chunkDimZ

/-- Embedding of `SvoBuilder::_resetBufferDataForNewChunkGeneration`: the
exact values written into every per-chunk transient buffer before a chunk
build. -/
def resetBufferDataForNewChunkGeneration (cfg : SvoConfig) (chunkIndex : ChunkIndex) :
    TransientBuffers :=
  { counterBuffer := 1
    octreeBuildInfoBuffer := { allocBegin := 0, allocNum := 8 }
    indirectAllocNumBuffer := { dispatchX := 1, dispatchY := 1, dispatchZ := 1 }
    indirectFragLengthBuffer := { dispatchX := 1, dispatchY := 1, dispatchZ := 1 }
    fragmentListInfoBuffer :=
      { voxelResolution := cfg.chunkVoxelDim, voxelFragmentCount := 0 }
    chunksInfoBuffer :=
      { chunksDim := cfg.getChunksDim
        currentlyWritingChunk := { x := chunkIndex.x, y := chunkIndex.y, z := chunkIndex.z } }
    octreeBufferLengthBuffer := 8 }

/-- Modelled from the spec: the compute shaders under
`resources/shaders/svo-builder/` are not among the examined sources.  The
host code only observes them through fenced read-backs and the octree staging
buffer, so a build is parameterised by those per-chunk observations: the
fragment count read back after the fragment-list stage, the final octree
length read back after the octree stage, and the contents of the per-chunk
octree staging buffer. -/
structure Gpu where
  fragmentCount : ChunkIndex → Nat
  octreeBufferLength : ChunkIndex → Nat
  chunkOctreeData : ChunkIndex → List Nat

/-- Host-visible effects of one chunk build, in program order: the transient
buffer reset, fenced command-buffer submissions, per-chunk field-image
creation, a chunk-memory allocation request, the device-to-device copy of the
per-chunk octree into the shared buffer, and the chunks-lookup write. -/
inductive Event
  | resetTransient (tb : TransientBuffers)
  | submit (cmds : List Cmd)
  | createFieldImage (idx : ChunkIndex)
  | allocateChunkMemory (sizeInBytes : Nat)
  | copyBuffer (dstOffset sizeInBytes : Nat)
  | lookupWrite (idx : ChunkIndex) (value : Nat)
deriving DecidableEq

/-- Orchestrator-owned state threaded through a scene build: the allocator
session, the chunks-lookup buffer (one entry per chunk coordinate, `none`
standing for the distinguished "empty" value), the copies appended to the
shared octree buffer, the per-chunk field images created so far, the
transient buffers and the write-offset buffer. -/
structure BuildState where
  allocator : AllocatorState
  chunksBuffer : List (Option Nat)
  appendedOctreeCopies : List (Nat × List Nat)
  fieldImages : List ChunkIndex
  transient : TransientBuffers
  octreeBufferWriteOffset : Nat
deriving DecidableEq

/-- Dense linear index of a chunk coordinate in the chunks-lookup buffer
(x innermost, matching the dense 3D array of the data model). -/
def linearChunkIndex (dims : UVec3) (idx : ChunkIndex) : Nat :=
  idx.x + dims.x * (idx.y + dims.y * idx.z)

/-- Modelled from the spec: the `chunksBuilder.comp` shader is not among the
examined sources; per the spec the dispatch recorded after the copy records
the allocation's element offset into the chunks-lookup entry of the currently
written chunk coordinate. -/
def chunksBuilderWrite (dims : UVec3) (idx : ChunkIndex) (offsetInUint32 : Nat)
    (lookup : List (Option Nat)) : List (Option Nat) :=
  lookup.set (linearChunkIndex dims idx) (some offsetInUint32)

/-- Embedding of `SvoBuilder::_buildChunk`: reset the transient buffers,
submit the fragment-list command buffer (fence-waited), read back the
fragment count and short-circuit when it is zero; otherwise create the
per-chunk field image, submit the octree command buffer (fence-waited), read
back the octree length, allocate `length * 4` bytes from the chunk memory
allocator (exhaustion is fatal, yielding `none`), copy the per-chunk octree
to the shared buffer at the allocated offset, fill the write-offset buffer
with `offset / 4` and record the chunks-builder dispatch. -/
def buildChunk (gpu : Gpu) (cfg : SvoConfig) (st : BuildState) (chunkIndex : ChunkIndex) :
    List Event × Option BuildState :=
  let tb := resetBufferDataForNewChunkGeneration cfg chunkIndex
  let st1 : BuildState := { st with transient := tb }
  let ev1 : List Event :=
    [.resetTransient tb,
     .submit (recordFragmentListCreationCommandBuffer cfg.chunkVoxelDim)]
  if gpu.fragmentCount chunkIndex = 0 then
    (ev1, some st1)
  else
    let st2 : BuildState := { st1 with fieldImages := st1.fieldImages ++ [chunkIndex] }
    let ev2 : List Event :=
      ev1 ++ [.createFieldImage chunkIndex,
              .submit (recordOctreeCreationCommandBuffer cfg.voxelLevelCount)]
    let octreeLen := gpu.octreeBufferLength chunkIndex
    match CustomMemoryAllocator.allocate st2.allocator (octreeLen * 4) with
    | none => (ev2 ++ [.allocateChunkMemory (octreeLen * 4)], none)
    | some (allocResult, allocator') =>
      let writeOffsetInBytes := allocResult.offset
      let writeOffsetInUint32 := writeOffsetInBytes / 4
      let st3 : BuildState :=
        { st2 with
          allocator := allocator'
          appendedOctreeCopies := st2.appendedOctreeCopies ++
            [(writeOffsetInBytes, (gpu.chunkOctreeData chunkIndex).take octreeLen)]
          octreeBufferWriteOffset := writeOffsetInUint32
          chunksBuffer :=
            chunksBuilderWrite cfg.getChunksDim chunkIndex writeOffsetInUint32 st2.chunksBuffer }
      (ev2 ++ [.allocateChunkMemory (octreeLen * 4),
               .copyBuffer writeOffsetInBytes (octreeLen * 4),
               .lookupWrite chunkIndex writeOffsetInUint32],
       some st3)

/-- The chunk coordinates visited by the triple loop of
`SvoBuilder::buildScene`, z outermost, y middle, x innermost. -/
def chunkIndices (cfg : SvoConfig) : List ChunkIndex :=
  (List.range cfg.chunkDimZ).flatMap fun z =>
    (List.range cfg.chunkDimY).flatMap fun y =>
      (List.range cfg.chunkDimX).map fun x => { x := x, y := y, z := z }

/-- The value `std::numeric_limits<uint32_t>::max()` used to seed the
minimum-time accumulator. -/
def uint32Max : Nat := 4294967295

/-- Result of a whole scene build: the final orchestrator state, the
concatenated per-chunk event traces, and the reported timing statistics.
`avgTimeMs = none` models the undefined-behavior branch of the final
division when its uint32 divisor is zero. -/
structure SceneOutcome where
  finalState : BuildState
  events : List Event
  minTimeMs : Nat
  maxTimeMs : Nat
  avgTimeMs : Option Nat
deriving DecidableEq

/-- The chunk loop of `SvoBuilder::buildScene`: build each chunk in order,
measuring a per-chunk duration (cast to uint32) and accumulating the
minimum, maximum and uint32 sum of the durations.  A fatal chunk build
(allocator exhaustion) aborts the run. -/
def buildLoop (gpu : Gpu) (cfg : SvoConfig) (timings : ChunkIndex → Nat) :
    List ChunkIndex → BuildState × List Event × Nat × Nat × Nat →
    Option (BuildState × List Event × Nat × Nat × Nat)
  | [], acc => some acc
  | chunkIndex :: rest, (st, evs, minT, maxT, sumT) =>
    match buildChunk gpu cfg st chunkIndex with
    | (_, none) => none
    | (ev, some st') =>
      let duration := timings chunkIndex % 4294967296
      buildLoop gpu cfg timings rest
        (st', evs ++ ev, min minT duration, max maxT duration,
         (sumT + duration) % 4294967296)

/-- Embedding of `SvoBuilder::buildScene`: zero the write-offset buffer, run
the chunk loop over the whole grid, then divide the accumulated time by the
uint32 product `chunkDimX * chunkDimY * chunkDimZ`; a zero divisor is the
undefined division, modelled as `avgTimeMs = none`.  `timings` supplies the
measured per-chunk wall-clock durations, the only run-to-run varying input. -/
def buildScene (gpu : Gpu) (cfg : SvoConfig) (timings : ChunkIndex → Nat)
    (st0 : BuildState) : Option SceneOutcome :=
  let stStart : BuildState := { st0 with octreeBufferWriteOffset := 0 }
  match buildLoop gpu cfg timings (chunkIndices cfg) (stStart, [], uint32Max, 0, 0) with
  | none => none
  | some (st, evs, minT, maxT, sumT) =>
    let divisor := (cfg.chunkDimX * cfg.chunkDimY * cfg.chunkDimZ) % 4294967296
    some { finalState := st, events := evs, minTimeMs := minT, maxTimeMs := maxT,
           avgTimeMs := if divisor = 0 then none else some (sumT / divisor) }

/-- Transient-buffer contents before the first reset; the device-local
buffers are created with unspecified contents and every chunk build resets
them before use, so the concrete values here are arbitrary. -/
def initialTransientBuffers : TransientBuffers :=
  { counterBuffer := 0
    octreeBuildInfoBuffer := { allocBegin := 0, allocNum := 0 }
    indirectAllocNumBuffer := { dispatchX := 0, dispatchY := 0, dispatchZ := 0 }
    indirectFragLengthBuffer := { dispatchX := 0, dispatchY := 0, dispatchZ := 0 }
    fragmentListInfoBuffer := { voxelResolution := 0, voxelFragmentCount := 0 }
    chunksInfoBuffer :=
      { chunksDim := { x := 0, y := 0, z := 0 }
        currentlyWritingChunk := { x := 0, y := 0, z := 0 } }
    octreeBufferLengthBuffer := 0 }

/-- Orchestrator state as set up by `SvoBuilder::init`: a fresh allocator
session over the up-front capacity and a chunks-lookup buffer with exactly
one entry per chunk coordinate.  Modelled from the spec: lookup entries hold
the distinguished "empty" value until a chunk's octree has been copied into
shared memory. -/
def initialBuildState (cfg : SvoConfig) (capacity : Nat) : BuildState :=
  { allocator := CustomMemoryAllocator.fresh capacity
    chunksBuffer := List.replicate cfg.chunkCount none
    appendedOctreeCopies := []
    fieldImages := []
    transient := initialTransientBuffers
    octreeBufferWriteOffset := 0 }

/-- Normal form of `octreeLevelCmds` at a non-last level. -/
def fullLevelCmds : List Cmd :=
  [recordIndirectCommand .initNode .indirectAllocNum,
   shaderAccessBarrier,
   recordIndirectCommand .tagNode .indirectFragLength,
   shaderAccessBarrier,
   recordIndirectCommand .allocNode .indirectAllocNum,
   shaderAccessBarrier,
   recordCommand .modifyArg 1 1 1 1 1 1,
   shaderAccessBarrier,
   indirectReadBarrier]

/-- Normal form of `octreeLevelCmds` at the last level. -/
def lastLevelCmds : List Cmd :=
  [recordIndirectCommand .initNode .indirectAllocNum,
   shaderAccessBarrier,
   recordIndirectCommand .tagNode .indirectFragLength]

/-- Session invariant of the chunk memory allocator: the cursor is 4-byte
aligned and within capacity, every handed-out range is 4-byte aligned and
ends at or before the cursor, and the handed-out ranges are mutually ordered
(each one begins at or after the end of every earlier one). -/
def AllocatorInv (s : AllocatorState) : Prop :=
  s.cursor % 4 = 0 ∧ s.cursor ≤ s.capacity ∧
  (∀ a ∈ s.allocations, a.offset % 4 = 0 ∧ a.offset + a.length ≤ s.cursor) ∧
  s.allocations.Pairwise (fun a b => a.offset + a.length ≤ b.offset)

/-- Chunks-lookup invariant carried through a scene build: the lookup buffer
keeps one entry per chunk coordinate, and every entry is either the
distinguished empty value or the element offset of one of the session's
allocations (which lies inside the shared buffer's capacity). -/
def LookupInv (st : BuildState) (entryCount : Nat) : Prop :=
  st.chunksBuffer.length = entryCount ∧
  ∀ e ∈ st.chunksBuffer, e = none ∨
    ∃ a ∈ st.allocator.allocations,
      e = some (a.offset / 4) ∧ a.offset + a.length ≤ st.allocator.capacity

/-- Observable build output of a scene run: the final orchestrator state
(octree copies and their offsets, allocator session, chunks lookup) and the
event trace, with the wall-clock timing statistics projected away. -/
def sceneObservables (res : SceneOutcome) : BuildState × List Event :=
  (res.finalState, res.events)

/-- Projection of the chunk-loop accumulator onto its non-timing components. -/
def loopObservables (acc : BuildState × List Event × Nat × Nat × Nat) :
    BuildState × List Event :=
  (acc.1, acc.2.1)

/-- Concrete configuration used by evaluation witnesses: an 8³-voxel chunk
(three octree levels) in a 1×1×1 chunk grid. -/
def cfgW : SvoConfig :=
  { chunkVoxelDim := 8, chunkDimX := 1, chunkDimY := 1, chunkDimZ := 1 }

/-- Concrete configuration whose uint32 chunk-count product wraps to zero:
65536 × 65536 × 1 chunks, every dimension at least 1. -/
def cfgOverflowW : SvoConfig :=
  { chunkVoxelDim := 8, chunkDimX := 65536, chunkDimY := 65536, chunkDimZ := 1 }

/-- GPU observations of a field that occupies no voxel in any chunk. -/
def gpuEmptyW : Gpu :=
  { fragmentCount := fun _ => 0
    octreeBufferLength := fun _ => 0
    chunkOctreeData := fun _ => [] }

/-- GPU observations of a field with eight fragments per chunk and a
ten-entry octree. -/
def gpuFullW : Gpu :=
  { fragmentCount := fun _ => 8
    octreeBufferLength := fun _ => 10
    chunkOctreeData := fun _ => List.replicate 16 7 }

/-- Concrete chunk coordinate used by evaluation witnesses. -/
def idxW : ChunkIndex := { x := 0, y := 0, z := 0 }

/-- Concrete per-chunk durations used by evaluation witnesses. -/
def timingsW : ChunkIndex → Nat := fun _ => 3

/-- All-zero per-chunk durations. -/
def timingsZeroW : ChunkIndex → Nat := fun _ => 0

/-- Concrete initial orchestrator state used by evaluation witnesses. -/
def stW : BuildState := initialBuildState cfgW 100

/-- Fallback outcome for extracting the result of a concrete scene run. -/
def fallbackOutcome : SceneOutcome :=
  { finalState := stW, events := [], minTimeMs := 0, maxTimeMs := 0, avgTimeMs := none }

/-- Result of the concrete non-empty scene run used by evaluation witnesses. -/
def resW : SceneOutcome :=
  (buildScene gpuFullW cfgW timingsW (initialBuildState cfgW 100)).getD fallbackOutcome

/-- Result of the concrete empty scene run used by evaluation witnesses. -/
def resEmptyW : SceneOutcome :=
  (buildScene gpuEmptyW cfgW timingsW (initialBuildState cfgW 0)).getD fallbackOutcome

/-! ## Command-buffer structure lemmas -/

theorem octreeLevelCmds_eq_full (lc level : Nat) (h : level ≠ lc - 1) :
    octreeLevelCmds lc level = fullLevelCmds := by
  simp [octreeLevelCmds, fullLevelCmds, h]

theorem octreeLevelCmds_eq_last (lc : Nat) :
    octreeLevelCmds lc (lc - 1) = lastLevelCmds := by
  simp [octreeLevelCmds, lastLevelCmds]

theorem range_flatMap_octreeLevelCmds (n : Nat) :
    (List.range (n + 1)).flatMap (octreeLevelCmds (n + 1)) =
      (List.range n).flatMap (fun _ => fullLevelCmds) ++ lastLevelCmds := by
  rw [List.range_succ, List.flatMap_append]
  congr 1
  · refine List.flatMap_congr fun level hl => ?_
    have hlt : level < n := List.mem_range.mp hl
    exact octreeLevelCmds_eq_full _ _ (by omega)
  · have : octreeLevelCmds (n + 1) n = lastLevelCmds := by
      have := octreeLevelCmds_eq_last (n + 1)
      simpa using this
    simp [this]

theorem countP_flatMap_fullLevelCmds (l : List Nat) :
    ((l.flatMap (fun _ => fullLevelCmds)).countP isInitNodeDispatch) = l.length := by
  induction l with
  | nil => rfl
  | cons a l ih =>
      rw [List.flatMap_cons, List.countP_append, ih]
      have hc : List.countP isInitNodeDispatch fullLevelCmds = 1 := rfl
      simp [hc]
      omega

theorem levelLoopIterationCount_record (lc : Nat) :
    levelLoopIterationCount (recordOctreeCreationCommandBuffer lc) = lc := by
  cases lc with
  | zero => rfl
  | succ n =>
      unfold levelLoopIterationCount recordOctreeCreationCommandBuffer
      rw [range_flatMap_octreeLevelCmds, List.countP_append, List.countP_append,
        countP_flatMap_fullLevelCmds, List.length_range]
      have hc1 : List.countP isInitNodeDispatch
          [recordCommand PipelineId.chunkModifyArg 1 1 1 1 1 1, shaderAccessBarrier,
            indirectReadBarrier] = 0 := rfl
      have hc2 : List.countP isInitNodeDispatch lastLevelCmds = 1 := rfl
      omega

/-- Claim C1: for every chunk build, the recorded octree-construction command
sequence contains exactly `levelCount` iterations of the level loop, where
`levelCount = log2(chunkVoxelDim)`; the recorded sequence is a function of
the configured `chunkVoxelDim` alone (it takes no fragment-data input), so
the iteration count never depends on the fragment data and admits no early
exit. -/
theorem octree_level_loop_iteration_count (chunkVoxelDim k : Nat)
    (h : chunkVoxelDim = 2 ^ k) :
    voxelLevelCountOf chunkVoxelDim = k ∧
    levelLoopIterationCount
        (recordOctreeCreationCommandBuffer (voxelLevelCountOf chunkVoxelDim)) = k := by
  have hlog : voxelLevelCountOf chunkVoxelDim = k := by
    subst h
    simp [voxelLevelCountOf, Nat.log2_eq_log_two, Nat.log_pow]
  exact ⟨hlog, by rw [hlog, levelLoopIterationCount_record]⟩

theorem octree_level_loop_iteration_count_witness :
    (8 : Nat) = 2 ^ 3 ∧
    (voxelLevelCountOf 8 = 3 ∧
      levelLoopIterationCount (recordOctreeCreationCommandBuffer (voxelLevelCountOf 8)) = 3) :=
  ⟨by decide, octree_level_loop_iteration_count 8 3 (by decide)⟩

/-- Claim C3: in every iteration of the octree-builder level loop, the
recorded stage order is init-node (indirect dispatch from the alloc-window
buffer) then tag-node (indirect dispatch from the fragment-length buffer),
and for every non-last level additionally alloc-node (indirect dispatch from
the node-count buffer) followed by the modify-arg dispatch that recomputes
the arguments for the next level: the dispatch subsequence of the recorded
command buffer equals, level by level, the order stated by the spec. -/
theorem octree_level_stage_order (lc : Nat) :
    dispatchSequence (recordOctreeCreationCommandBuffer lc) =
      specOctreeDispatchOrder lc := by
  unfold dispatchSequence recordOctreeCreationCommandBuffer specOctreeDispatchOrder
  rw [List.filter_append, List.filter_flatMap]
  have hpre : List.filter isDispatchCmd
      [recordCommand PipelineId.chunkModifyArg 1 1 1 1 1 1, shaderAccessBarrier,
        indirectReadBarrier] = [Cmd.dispatch PipelineId.chunkModifyArg 1 1 1] := rfl
  rw [hpre]
  have hbody : ∀ level ∈ List.range lc,
      (octreeLevelCmds lc level).filter isDispatchCmd =
        [Cmd.dispatchIndirect PipelineId.initNode IndirectBufferId.indirectAllocNum,
         Cmd.dispatchIndirect PipelineId.tagNode IndirectBufferId.indirectFragLength] ++
        (if level ≠ lc - 1 then
          [Cmd.dispatchIndirect PipelineId.allocNode IndirectBufferId.indirectAllocNum,
           Cmd.dispatch PipelineId.modifyArg 1 1 1]
        else []) := by
    intro level _
    by_cases h : level = lc - 1
    · subst h
      rw [octreeLevelCmds_eq_last]
      simp [lastLevelCmds, recordIndirectCommand, List.filter, isDispatchCmd,
        shaderAccessBarrier]
    · rw [octreeLevelCmds_eq_full lc level h]
      simp [fullLevelCmds, recordIndirectCommand, recordCommand, List.filter, isDispatchCmd,
        shaderAccessBarrier, indirectReadBarrier, ceilDiv, h]
  rw [List.flatMap_congr hbody]
  rfl

/-! ## Barrier-discipline lemmas -/

theorem barrierScan_cons (c : Cmd) (l : List Cmd) (p : Bool) :
    barrierScan (c :: l) p =
      if isIndirectDispatch c && p then none
      else barrierScan l
        (if isArgWriteDispatch c then true
         else if isWriteToIndirectBarrier c then false else p) := rfl

theorem barrierScan_append (l1 l2 : List Cmd) (p : Bool) :
    barrierScan (l1 ++ l2) p = (barrierScan l1 p).bind (fun q => barrierScan l2 q) := by
  induction l1 generalizing p with
  | nil => rfl
  | cons c rest ih =>
      rw [List.cons_append, barrierScan_cons, barrierScan_cons]
      by_cases h : (isIndirectDispatch c && p) = true
      · rw [if_pos h, if_pos h]
        rfl
      · rw [if_neg h, if_neg h]
        exact ih _

theorem barrierScan_repeatedFull (n : Nat) :
    barrierScan ((List.range n).flatMap (fun _ => fullLevelCmds)) false = some false := by
  induction n with
  | zero => rfl
  | succ m ih =>
      rw [List.range_succ, List.flatMap_append, barrierScan_append, ih]
      rfl

/-- Claim C8: in the recorded octree-creation command buffer, every dispatch
that writes an indirect-dispatch argument buffer (the pre-loop
chunk-modify-arg and every in-loop modify-arg) is followed, before the next
indirect dispatch that consumes those arguments, by a pipeline barrier whose
source access is shader-write and whose destination access includes
indirect-command-read: the barrier-discipline scan never observes an
indirect dispatch while such a write is unprotected. -/
theorem indirect_arg_barrier_discipline (lc : Nat) :
    (barrierScan (recordOctreeCreationCommandBuffer lc) false).isSome = true := by
  cases lc with
  | zero => rfl
  | succ n =>
      unfold recordOctreeCreationCommandBuffer
      rw [range_flatMap_octreeLevelCmds, barrierScan_append]
      have hpre : barrierScan
          [recordCommand PipelineId.chunkModifyArg 1 1 1 1 1 1, shaderAccessBarrier,
            indirectReadBarrier] false = some false := rfl
      rw [hpre, Option.some_bind, barrierScan_append, barrierScan_repeatedFull,
        Option.some_bind]
      rfl

/-! ## Chunk-build control-flow lemmas -/

theorem octree_ne_fragment_cmds (lc cvd : Nat) :
    recordOctreeCreationCommandBuffer lc ≠ recordFragmentListCreationCommandBuffer cvd := by
  simp [recordOctreeCreationCommandBuffer, recordFragmentListCreationCommandBuffer,
    recordCommand]

/-- Claim C2: for every chunk whose fragment count read back after the
fragment-list stage is 0, `_buildChunk` returns before doing any further
work: no field image is created, the octree-creation command buffer is not
submitted, no allocation is requested from the chunk memory allocator, no
chunks-lookup write is recorded, and the resulting state differs from the
input state only in the reset transient buffers. -/
theorem empty_chunk_short_circuit (gpu : Gpu) (cfg : SvoConfig) (st : BuildState)
    (idx : ChunkIndex) (h : gpu.fragmentCount idx = 0) :
    (∀ i, Event.createFieldImage i ∉ (buildChunk gpu cfg st idx).1) ∧
    Event.submit (recordOctreeCreationCommandBuffer cfg.voxelLevelCount) ∉
      (buildChunk gpu cfg st idx).1 ∧
    (∀ n, Event.allocateChunkMemory n ∉ (buildChunk gpu cfg st idx).1) ∧
    (∀ i v, Event.lookupWrite i v ∉ (buildChunk gpu cfg st idx).1) ∧
    (buildChunk gpu cfg st idx).2 =
      some { st with transient := resetBufferDataForNewChunkGeneration cfg idx } := by
  unfold buildChunk
  simp [h, octree_ne_fragment_cmds]

theorem empty_chunk_short_circuit_witness :
    gpuEmptyW.fragmentCount idxW = 0 ∧
    ((∀ i, Event.createFieldImage i ∉ (buildChunk gpuEmptyW cfgW stW idxW).1) ∧
      Event.submit (recordOctreeCreationCommandBuffer cfgW.voxelLevelCount) ∉
        (buildChunk gpuEmptyW cfgW stW idxW).1 ∧
      (∀ n, Event.allocateChunkMemory n ∉ (buildChunk gpuEmptyW cfgW stW idxW).1) ∧
      (∀ i v, Event.lookupWrite i v ∉ (buildChunk gpuEmptyW cfgW stW idxW).1) ∧
      (buildChunk gpuEmptyW cfgW stW idxW).2 =
        some { stW with transient := resetBufferDataForNewChunkGeneration cfgW idxW }) :=
  ⟨rfl, empty_chunk_short_circuit gpuEmptyW cfgW stW idxW rfl⟩

/-- Claim C4: before every chunk build, the per-chunk transient buffers are
reset to exactly: atomic counter 1, build-info allocation window
`[0, 8)`, both indirect-dispatch argument buffers `(1,1,1)`, fragment count
0 (with the configured voxel resolution), chunks-info holding the chunk-grid
dimensions and the current chunk index, and octree buffer length 8; the
reset is the first host-visible action of `_buildChunk`. -/
theorem reset_transient_buffer_values (gpu : Gpu) (cfg : SvoConfig) (st : BuildState)
    (idx : ChunkIndex) :
    ((buildChunk gpu cfg st idx).1).head? =
      some (Event.resetTransient
        { counterBuffer := 1
          octreeBuildInfoBuffer := { allocBegin := 0, allocNum := 8 }
          indirectAllocNumBuffer := { dispatchX := 1, dispatchY := 1, dispatchZ := 1 }
          indirectFragLengthBuffer := { dispatchX := 1, dispatchY := 1, dispatchZ := 1 }
          fragmentListInfoBuffer :=
            { voxelResolution := cfg.chunkVoxelDim, voxelFragmentCount := 0 }
          chunksInfoBuffer :=
            { chunksDim := { x := cfg.chunkDimX, y := cfg.chunkDimY, z := cfg.chunkDimZ }
              currentlyWritingChunk := { x := idx.x, y := idx.y, z := idx.z } }
          octreeBufferLengthBuffer := 8 }) := by
  unfold buildChunk
  by_cases h : gpu.fragmentCount idx = 0
  · simp [h, resetBufferDataForNewChunkGeneration, SvoConfig.getChunksDim]
  · simp only [h, if_false]
    split
    · simp [resetBufferDataForNewChunkGeneration, SvoConfig.getChunksDim]
    · simp [resetBufferDataForNewChunkGeneration, SvoConfig.getChunksDim]

/-- Claim C5: for every non-empty chunk whose build completes, the
orchestrator requests an allocation of exactly `octreeBufferLength * 4`
bytes from the chunk memory allocator, copies the per-chunk octree buffer to
the shared output buffer at the returned byte offset, and records as the
chunk's lookup value the returned byte offset divided by 4. -/
theorem nonempty_chunk_alloc_copy_lookup (gpu : Gpu) (cfg : SvoConfig) (st : BuildState)
    (idx : ChunkIndex)
    (h1 : gpu.fragmentCount idx ≠ 0)
    (h2 : ((buildChunk gpu cfg st idx).2).isSome = true) :
    ∃ a alloc',
      CustomMemoryAllocator.allocate st.allocator (gpu.octreeBufferLength idx * 4) =
        some (a, alloc') ∧
      Event.allocateChunkMemory (gpu.octreeBufferLength idx * 4) ∈
        (buildChunk gpu cfg st idx).1 ∧
      Event.copyBuffer a.offset (gpu.octreeBufferLength idx * 4) ∈
        (buildChunk gpu cfg st idx).1 ∧
      Event.lookupWrite idx (a.offset / 4) ∈ (buildChunk gpu cfg st idx).1 ∧
      ((buildChunk gpu cfg st idx).2).map BuildState.allocator = some alloc' ∧
      ((buildChunk gpu cfg st idx).2).map BuildState.chunksBuffer =
        some (st.chunksBuffer.set (linearChunkIndex cfg.getChunksDim idx)
          (some (a.offset / 4))) := by
  unfold buildChunk at h2 ⊢
  rcases hA : CustomMemoryAllocator.allocate st.allocator (gpu.octreeBufferLength idx * 4)
    with _ | ⟨a, alloc'⟩
  · simp [h1, hA] at h2
  · refine ⟨a, alloc', rfl, ?_⟩
    simp [h1, hA, chunksBuilderWrite]

theorem nonempty_chunk_alloc_copy_lookup_witness :
    gpuFullW.fragmentCount idxW ≠ 0 ∧
    ((buildChunk gpuFullW cfgW stW idxW).2).isSome = true ∧
    (∃ a alloc',
      CustomMemoryAllocator.allocate stW.allocator (gpuFullW.octreeBufferLength idxW * 4) =
        some (a, alloc') ∧
      Event.allocateChunkMemory (gpuFullW.octreeBufferLength idxW * 4) ∈
        (buildChunk gpuFullW cfgW stW idxW).1 ∧
      Event.copyBuffer a.offset (gpuFullW.octreeBufferLength idxW * 4) ∈
        (buildChunk gpuFullW cfgW stW idxW).1 ∧
      Event.lookupWrite idxW (a.offset / 4) ∈ (buildChunk gpuFullW cfgW stW idxW).1 ∧
      ((buildChunk gpuFullW cfgW stW idxW).2).map BuildState.allocator = some alloc' ∧
      ((buildChunk gpuFullW cfgW stW idxW).2).map BuildState.chunksBuffer =
        some (stW.chunksBuffer.set (linearChunkIndex cfgW.getChunksDim idxW)
          (some (a.offset / 4)))) :=
  ⟨by decide, rfl,
    nonempty_chunk_alloc_copy_lookup gpuFullW cfgW stW idxW (by decide) rfl⟩

/-! ## Allocator-session lemmas -/

theorem le_align4 (n : Nat) : n ≤ 4 * ((n + 3) / 4) := by
  have h1 := Nat.div_add_mod (n + 3) 4
  have h2 : (n + 3) % 4 < 4 := Nat.mod_lt _ (by omega)
  omega

theorem allocate_preserves_inv (s s' : AllocatorState) (n : Nat) (r : AllocResult)
    (hInv : AllocatorInv s)
    (h : CustomMemoryAllocator.allocate s n = some (r, s')) :
    AllocatorInv s' ∧ s'.capacity = s.capacity ∧
    s'.allocations = s.allocations ++ [r] := by
  obtain ⟨hc4, hcap, hend, hpw⟩ := hInv
  unfold CustomMemoryAllocator.allocate at h
  by_cases hg : s.cursor + 4 * ((n + 3) / 4) ≤ s.capacity
  · rw [if_pos hg, Option.some.injEq, Prod.mk.injEq] at h
    obtain ⟨hr, hs⟩ := h
    subst hr
    subst hs
    refine ⟨⟨?_, ?_, ?_, ?_⟩, rfl, rfl⟩
    · show (s.cursor + 4 * ((n + 3) / 4)) % 4 = 0
      omega
    · exact hg
    · intro a ha
      rcases List.mem_append.mp ha with hOld | hNew
      · obtain ⟨ha4, hae⟩ := hend a hOld
        refine ⟨ha4, ?_⟩
        show a.offset + a.length ≤ s.cursor + 4 * ((n + 3) / 4)
        omega
      · have hae : a = { offset := s.cursor, length := n } := by
          simpa using hNew
        subst hae
        have hle := le_align4 n
        exact ⟨hc4, by show s.cursor + n ≤ s.cursor + 4 * ((n + 3) / 4); omega⟩
    · refine List.pairwise_append.mpr ⟨hpw, List.pairwise_singleton _ _, ?_⟩
      intro a ha b hb
      have hbe : b = { offset := s.cursor, length := n } := by simpa using hb
      subst hbe
      obtain ⟨_, hae⟩ := hend a ha
      show a.offset + a.length ≤ s.cursor
      exact hae
  · rw [if_neg hg] at h
    exact absurd h (by simp)

theorem allocateAll_preserves_inv (requests : List Nat) (s : AllocatorState)
    (hInv : AllocatorInv s) :
    AllocatorInv (CustomMemoryAllocator.allocateAll s requests) ∧
    (CustomMemoryAllocator.allocateAll s requests).capacity = s.capacity := by
  induction requests generalizing s with
  | nil => exact ⟨hInv, rfl⟩
  | cons n rest ih =>
      unfold CustomMemoryAllocator.allocateAll
      rcases hA : CustomMemoryAllocator.allocate s n with _ | ⟨r, s'⟩
      · exact ⟨hInv, rfl⟩
      · obtain ⟨hInv', hcap, _⟩ := allocate_preserves_inv s s' n r hInv hA
        obtain ⟨h1, h2⟩ := ih s' hInv'
        exact ⟨h1, by rw [h2, hcap]⟩

/-- Claim C6: over any allocator session (any sequence of requests served
from a single up-front capacity), the returned byte ranges
`[offset, offset + length)` are mutually non-overlapping and monotonic (each
allocation begins at or after the end of every earlier one), every returned
offset is a multiple of 4, every range lies within the capacity, and the
capacity never changes mid-session. -/
theorem allocator_nonoverlap_aligned_monotonic (capacity : Nat) (requests : List Nat) :
    (∀ a ∈ (CustomMemoryAllocator.allocateAll
        (CustomMemoryAllocator.fresh capacity) requests).allocations,
      a.offset % 4 = 0 ∧ a.offset + a.length ≤ capacity) ∧
    ((CustomMemoryAllocator.allocateAll
        (CustomMemoryAllocator.fresh capacity) requests).allocations).Pairwise
      (fun a b => a.offset + a.length ≤ b.offset) ∧
    (CustomMemoryAllocator.allocateAll
        (CustomMemoryAllocator.fresh capacity) requests).capacity = capacity := by
  have hfresh : AllocatorInv (CustomMemoryAllocator.fresh capacity) := by
    refine ⟨rfl, ?_, ?_, ?_⟩
    · simp [CustomMemoryAllocator.fresh]
    · intro a ha
      simp [CustomMemoryAllocator.fresh] at ha
    · simp [CustomMemoryAllocator.fresh]
  obtain ⟨⟨hc4, hcap, hend, hpw⟩, hcapEq⟩ :=
    allocateAll_preserves_inv requests (CustomMemoryAllocator.fresh capacity) hfresh
  have hcc : (CustomMemoryAllocator.fresh capacity).capacity = capacity := rfl
  refine ⟨?_, hpw, by rw [hcapEq, hcc]⟩
  intro a ha
  have hae := hend a ha
  omega

/-! ## Chunks-lookup invariant lemmas -/

theorem allocate_facts (s s' : AllocatorState) (n : Nat) (r : AllocResult)
    (h : CustomMemoryAllocator.allocate s n = some (r, s')) :
    s'.capacity = s.capacity ∧ s'.allocations = s.allocations ++ [r] ∧
    r.offset + r.length ≤ s.capacity := by
  unfold CustomMemoryAllocator.allocate at h
  by_cases hg : s.cursor + 4 * ((n + 3) / 4) ≤ s.capacity
  · rw [if_pos hg, Option.some.injEq, Prod.mk.injEq] at h
    obtain ⟨hr, hs⟩ := h
    subst hr
    subst hs
    refine ⟨rfl, rfl, ?_⟩
    show s.cursor + n ≤ s.capacity
    have := le_align4 n
    omega
  · rw [if_neg hg] at h
    exact absurd h (by simp)

theorem buildChunk_preserves_lookupInv (gpu : Gpu) (cfg : SvoConfig) (st st' : BuildState)
    (idx : ChunkIndex) (n : Nat)
    (hInv : LookupInv st n)
    (h : (buildChunk gpu cfg st idx).2 = some st') :
    LookupInv st' n := by
  obtain ⟨hlen, hent⟩ := hInv
  unfold buildChunk at h
  by_cases hf : gpu.fragmentCount idx = 0
  · simp only [hf, if_pos, if_true] at h
    simp only [Option.some.injEq] at h
    subst h
    exact ⟨hlen, hent⟩
  · rcases hA : CustomMemoryAllocator.allocate st.allocator (gpu.octreeBufferLength idx * 4)
      with _ | ⟨a, alloc'⟩
    · simp [hf, hA] at h
    · simp only [hf, hA, if_neg, if_false] at h
      simp only [Option.some.injEq] at h
      subst h
      obtain ⟨hc, hall, hbound⟩ :=
        allocate_facts st.allocator alloc' (gpu.octreeBufferLength idx * 4) a hA
      refine ⟨?_, ?_⟩
      · show (chunksBuilderWrite cfg.getChunksDim idx (a.offset / 4) st.chunksBuffer).length = n
        rw [chunksBuilderWrite, List.length_set]
        exact hlen
      · intro e he
        replace he : e ∈ st.chunksBuffer.set (linearChunkIndex cfg.getChunksDim idx)
            (some (a.offset / 4)) := he
        rcases List.mem_or_eq_of_mem_set he with hOld | hNew
        · rcases hent e hOld with hNone | ⟨a', ha', hval, hcap⟩
          · exact Or.inl hNone
          · refine Or.inr ⟨a', ?_, hval, ?_⟩
            · show a' ∈ alloc'.allocations
              rw [hall]
              exact List.mem_append_left _ ha'
            · show a'.offset + a'.length ≤ alloc'.capacity
              rw [hc]
              exact hcap
        · refine Or.inr ⟨a, ?_, hNew, ?_⟩
          · show a ∈ alloc'.allocations
            rw [hall]
            exact List.mem_append_right _ (List.mem_singleton.mpr rfl)
          · show a.offset + a.length ≤ alloc'.capacity
            rw [hc]
            exact hbound

theorem buildLoop_preserves_lookupInv (gpu : Gpu) (cfg : SvoConfig) (t : ChunkIndex → Nat)
    (n : Nat) (idxs : List ChunkIndex) :
    ∀ (st : BuildState) (evs : List Event) (mn mx sm : Nat)
      (out : BuildState × List Event × Nat × Nat × Nat),
      LookupInv st n →
      buildLoop gpu cfg t idxs (st, evs, mn, mx, sm) = some out →
      LookupInv out.1 n := by
  induction idxs with
  | nil =>
      intro st evs mn mx sm out hInv h
      unfold buildLoop at h
      simp only [Option.some.injEq] at h
      rw [← h]
      exact hInv
  | cons i rest ih =>
      intro st evs mn mx sm out hInv h
      unfold buildLoop at h
      rcases hB : buildChunk gpu cfg st i with ⟨ev, stOpt⟩
      rw [hB] at h
      cases stOpt with
      | none => simp at h
      | some st' =>
          have hInv' : LookupInv st' n :=
            buildChunk_preserves_lookupInv gpu cfg st st' i n hInv (by rw [hB])
          exact ih st' _ _ _ _ out hInv' h

/-- Claim C7: for every chunk grid, after a completed `buildScene` run
starting from the initialized orchestrator state, the chunks-lookup buffer
holds exactly `chunkDimX * chunkDimY * chunkDimZ` entries, and every entry —
including the entries of chunks that were skipped as empty — is either the
distinguished empty value or the element offset of one of the shared
buffer's allocations (a valid offset into the shared octree buffer). -/
theorem buildScene_lookup_entries (gpu : Gpu) (cfg : SvoConfig) (timings : ChunkIndex → Nat)
    (capacity : Nat) (res : SceneOutcome)
    (h : buildScene gpu cfg timings (initialBuildState cfg capacity) = some res) :
    res.finalState.chunksBuffer.length = cfg.chunkCount ∧
    ∀ e ∈ res.finalState.chunksBuffer, e = none ∨
      ∃ a ∈ res.finalState.allocator.allocations,
        e = some (a.offset / 4) ∧
        a.offset + a.length ≤ res.finalState.allocator.capacity := by
  simp only [buildScene] at h
  rcases hL : buildLoop gpu cfg timings (chunkIndices cfg)
      ({ initialBuildState cfg capacity with octreeBufferWriteOffset := 0 },
        [], uint32Max, 0, 0)
    with _ | out
  · rw [hL] at h
    simp at h
  · rw [hL] at h
    rcases out with ⟨st, evs, mn, mx, sm⟩
    have hInv0 :
        LookupInv { initialBuildState cfg capacity with octreeBufferWriteOffset := 0 }
          cfg.chunkCount := by
      refine ⟨?_, ?_⟩
      · show (List.replicate cfg.chunkCount (none : Option Nat)).length = cfg.chunkCount
        exact List.length_replicate _ _
      · intro e he
        exact Or.inl (List.eq_of_mem_replicate he)
    have hfin := buildLoop_preserves_lookupInv gpu cfg timings cfg.chunkCount
      (chunkIndices cfg) _ _ _ _ _ _ hInv0 hL
    simp only [Option.some.injEq] at h
    rw [← h]
    exact hfin

theorem buildScene_lookup_entries_witness :
    buildScene gpuFullW cfgW timingsW (initialBuildState cfgW 100) = some resW ∧
    (resW.finalState.chunksBuffer.length = cfgW.chunkCount ∧
      ∀ e ∈ resW.finalState.chunksBuffer, e = none ∨
        ∃ a ∈ resW.finalState.allocator.allocations,
          e = some (a.offset / 4) ∧
          a.offset + a.length ≤ resW.finalState.allocator.capacity) :=
  ⟨rfl, buildScene_lookup_entries gpuFullW cfgW timingsW 100 resW rfl⟩

/-! ## Determinism and timing lemmas -/

theorem buildLoop_timing_indep (gpu : Gpu) (cfg : SvoConfig) (t1 t2 : ChunkIndex → Nat)
    (idxs : List ChunkIndex) :
    ∀ (st : BuildState) (evs : List Event) (m1 x1 s1 m2 x2 s2 : Nat),
      (buildLoop gpu cfg t1 idxs (st, evs, m1, x1, s1)).map loopObservables =
      (buildLoop gpu cfg t2 idxs (st, evs, m2, x2, s2)).map loopObservables := by
  induction idxs with
  | nil =>
      intro st evs m1 x1 s1 m2 x2 s2
      rfl
  | cons i rest ih =>
      intro st evs m1 x1 s1 m2 x2 s2
      unfold buildLoop
      rcases hB : buildChunk gpu cfg st i with ⟨ev, stOpt⟩
      cases stOpt with
      | none => rfl
      | some st' => exact ih _ _ _ _ _ _ _ _

/-- Claim C9: `buildScene` is deterministic: for a fixed field (GPU
observation function), chunk grid and voxel resolution, two runs each
starting from the freshly initialized orchestrator state produce identical
build outputs — the same per-chunk octree copies at the same allocation
offsets, the same allocator session, the same lookup entries and the same
event trace — regardless of the per-chunk wall-clock durations, the only
run-to-run varying input of the embedding. -/
theorem buildScene_deterministic (gpu : Gpu) (cfg : SvoConfig) (t1 t2 : ChunkIndex → Nat)
    (capacity : Nat) :
    (buildScene gpu cfg t1 (initialBuildState cfg capacity)).map sceneObservables =
    (buildScene gpu cfg t2 (initialBuildState cfg capacity)).map sceneObservables := by
  have hmap : ∀ (t : ChunkIndex → Nat) (st0 : BuildState),
      (buildScene gpu cfg t st0).map sceneObservables =
        (buildLoop gpu cfg t (chunkIndices cfg)
          ({ st0 with octreeBufferWriteOffset := 0 }, [], uint32Max, 0, 0)).map
          loopObservables := by
    intro t st0
    simp only [buildScene]
    rcases buildLoop gpu cfg t (chunkIndices cfg)
        ({ st0 with octreeBufferWriteOffset := 0 }, [], uint32Max, 0, 0)
      with _ | ⟨st, evs, mn, mx, sm⟩
    · rfl
    · rfl
  rw [hmap, hmap]
  exact buildLoop_timing_indep gpu cfg t1 t2 (chunkIndices cfg)
    { initialBuildState cfg capacity with octreeBufferWriteOffset := 0 }
    [] uint32Max 0 0 uint32Max 0 0

theorem buildLoop_empty_gpu (gpu : Gpu) (cfg : SvoConfig) (t : ChunkIndex → Nat)
    (hEmpty : ∀ i, gpu.fragmentCount i = 0) (idxs : List ChunkIndex) :
    ∀ (st : BuildState) (evs : List Event) (mn mx sm : Nat),
      ∃ out, buildLoop gpu cfg t idxs (st, evs, mn, mx, sm) = some out := by
  induction idxs with
  | nil =>
      intro st evs mn mx sm
      exact ⟨_, rfl⟩
  | cons i rest ih =>
      intro st evs mn mx sm
      unfold buildLoop
      have hB : buildChunk gpu cfg st i =
          ([Event.resetTransient (resetBufferDataForNewChunkGeneration cfg i),
            Event.submit (recordFragmentListCreationCommandBuffer cfg.chunkVoxelDim)],
           some { st with transient := resetBufferDataForNewChunkGeneration cfg i }) := by
        unfold buildChunk
        simp [hEmpty i]
      rw [hB]
      exact ih _ _ _ _ _

theorem buildScene_avg_of_empty (gpu : Gpu) (cfg : SvoConfig) (t : ChunkIndex → Nat)
    (st0 : BuildState) (hEmpty : ∀ i, gpu.fragmentCount i = 0)
    (hdiv : (cfg.chunkDimX * cfg.chunkDimY * cfg.chunkDimZ) % 4294967296 = 0) :
    (buildScene gpu cfg t st0).map SceneOutcome.avgTimeMs = some none := by
  obtain ⟨out, hout⟩ := buildLoop_empty_gpu gpu cfg t hEmpty (chunkIndices cfg)
    { st0 with octreeBufferWriteOffset := 0 } [] uint32Max 0 0
  simp only [buildScene]
  rw [hout]
  rcases out with ⟨st, evs, mn, mx, sm⟩
  simp [hdiv]

/-- Counterexample to claim C10 as stated: the divisor of the average-time
division is the uint32 product of the chunk-grid dimensions, which wraps to
zero for the 65536 × 65536 × 1 grid even though all three dimensions are at
least 1, so the division is not well-defined for every grid with all
dimensions at least 1. -/
theorem buildScene_avg_unreachable_counterexample :
    ((buildScene gpuEmptyW cfgOverflowW timingsZeroW
        (initialBuildState cfgOverflowW 0)).map SceneOutcome.avgTimeMs) = some none ∧
    1 ≤ cfgOverflowW.chunkDimX ∧ 1 ≤ cfgOverflowW.chunkDimY ∧
    1 ≤ cfgOverflowW.chunkDimZ :=
  ⟨buildScene_avg_of_empty gpuEmptyW cfgOverflowW timingsZeroW
      (initialBuildState cfgOverflowW 0) (fun _ => rfl) (by decide),
    by decide, by decide, by decide⟩

/-- Claim C10 (amended): `buildScene` unconditionally divides the
accumulated build time by the uint32 product
`chunkDimX * chunkDimY * chunkDimZ` after the chunk loop; the division is
well-defined exactly when that uint32 product is nonzero.  A grid with any
zero dimension makes the divisor 0, so the division's error branch is
unreachable only under the precondition that all three dimensions are at
least 1 (necessary, though because of uint32 wraparound not sufficient). -/
theorem buildScene_avg_division_guard (gpu : Gpu) (cfg : SvoConfig)
    (timings : ChunkIndex → Nat) (st0 : BuildState) (res : SceneOutcome)
    (h : buildScene gpu cfg timings st0 = some res) :
    (res.avgTimeMs = none ↔
      (cfg.chunkDimX * cfg.chunkDimY * cfg.chunkDimZ) % 4294967296 = 0) ∧
    ((cfg.chunkDimX = 0 ∨ cfg.chunkDimY = 0 ∨ cfg.chunkDimZ = 0) →
      (cfg.chunkDimX * cfg.chunkDimY * cfg.chunkDimZ) % 4294967296 = 0) ∧
    (res.avgTimeMs ≠ none →
      1 ≤ cfg.chunkDimX ∧ 1 ≤ cfg.chunkDimY ∧ 1 ≤ cfg.chunkDimZ) := by
  simp only [buildScene] at h
  rcases hL : buildLoop gpu cfg timings (chunkIndices cfg)
      ({ st0 with octreeBufferWriteOffset := 0 }, [], uint32Max, 0, 0) with _ | out
  · rw [hL] at h
    simp at h
  · rw [hL] at h
    rcases out with ⟨st, evs, mn, mx, sm⟩
    simp only [Option.some.injEq] at h
    have havg : res.avgTimeMs =
        if (cfg.chunkDimX * cfg.chunkDimY * cfg.chunkDimZ) % 4294967296 = 0 then none
        else some (sm / ((cfg.chunkDimX * cfg.chunkDimY * cfg.chunkDimZ) % 4294967296)) := by
      rw [← h]
    have hzero : (cfg.chunkDimX = 0 ∨ cfg.chunkDimY = 0 ∨ cfg.chunkDimZ = 0) →
        (cfg.chunkDimX * cfg.chunkDimY * cfg.chunkDimZ) % 4294967296 = 0 := by
      intro hz
      have hp : cfg.chunkDimX * cfg.chunkDimY * cfg.chunkDimZ = 0 := by
        rcases hz with h0 | h0 | h0 <;> simp [h0]
      rw [hp]
    refine ⟨?_, hzero, ?_⟩
    · rw [havg]
      by_cases hd : (cfg.chunkDimX * cfg.chunkDimY * cfg.chunkDimZ) % 4294967296 = 0
      · simp [hd]
      · simp [hd]
    · intro hne
      rw [havg] at hne
      by_cases hd : (cfg.chunkDimX * cfg.chunkDimY * cfg.chunkDimZ) % 4294967296 = 0
      · rw [if_pos hd] at hne
        exact absurd rfl hne
      · refine ⟨?_, ?_, ?_⟩
        · rcases Nat.eq_zero_or_pos cfg.chunkDimX with h0 | h1
          · exact absurd (hzero (Or.inl h0)) hd
          · exact h1
        · rcases Nat.eq_zero_or_pos cfg.chunkDimY with h0 | h1
          · exact absurd (hzero (Or.inr (Or.inl h0))) hd
          · exact h1
        · rcases Nat.eq_zero_or_pos cfg.chunkDimZ with h0 | h1
          · exact absurd (hzero (Or.inr (Or.inr h0))) hd
          · exact h1

theorem buildScene_avg_division_guard_witness :
    buildScene gpuEmptyW cfgW timingsW (initialBuildState cfgW 0) = some resEmptyW ∧
    ((resEmptyW.avgTimeMs = none ↔
        (cfgW.chunkDimX * cfgW.chunkDimY * cfgW.chunkDimZ) % 4294967296 = 0) ∧
      ((cfgW.chunkDimX = 0 ∨ cfgW.chunkDimY = 0 ∨ cfgW.chunkDimZ = 0) →
        (cfgW.chunkDimX * cfgW.chunkDimY * cfgW.chunkDimZ) % 4294967296 = 0) ∧
      (resEmptyW.avgTimeMs ≠ none →
        1 ≤ cfgW.chunkDimX ∧ 1 ≤ cfgW.chunkDimY ∧ 1 ≤ cfgW.chunkDimZ)) :=
  ⟨rfl, buildScene_avg_division_guard gpuEmptyW cfgW timingsW
    (initialBuildState cfgW 0) resEmptyW rfl⟩
